import Mathlib

/-!
Verification of the chakshu_travels travel-planning repository.

This file shallowly embeds the pure/decision logic of the repository's
Python modules (src/config/settings.py, src/tools/__init__.py,
src/agents/orchestrator.py, src/agents/data_aggregator.py,
src/agents/itinerary_agent.py) as executable Lean definitions and proves
the specification claims about them.  Network and LLM effects are
abstracted as explicit outcome parameters (`Except String _`): a `.error e`
value models a Python call that raised an exception whose `str()` is `e`.
-/

set_option maxRecDepth 4096

/-- A small model of dynamically-typed Python values (JSON-like dicts),
used where the Python code builds and inspects plain dicts. A Python dict
is modelled as an insertion-ordered association list. -/
inductive PyVal where
  | none
  | bool (b : Bool)
  | int (n : Int)
  | str (s : String)
  | list (l : List PyVal)
  | dict (d : List (String × PyVal))

instance : Inhabited PyVal := ⟨PyVal.none⟩

/-- Lookup in an (insertion-ordered) association-list dict. -/
def lookupL : List (String × PyVal) → String → Option PyVal
  | [], _ => Option.none
  | (k', v) :: rest, k => if k' = k then some v else lookupL rest k

/-- Python `d[k]` on a modelled dict; `none` on non-dicts / missing keys. -/
def pyLookup (v : PyVal) (k : String) : Option PyVal :=
  match v with
  | .dict d => lookupL d k
  | _ => Option.none

/-- Python `d[k] = v` on an association-list dict: replaces an existing
key in place, otherwise appends (insertion order, as in CPython). -/
def setKey (d : List (String × PyVal)) (k : String) (v : PyVal) :
    List (String × PyVal) :=
  if d.any (fun p => p.1 = k) then
    d.map (fun p => if p.1 = k then (k, v) else p)
  else
    d ++ [(k, v)]

/-- Python `dict.update`: apply `setKey` for each pair of the update. -/
def pyUpdate (d upd : List (String × PyVal)) : List (String × PyVal) :=
  upd.foldl (fun acc p => setKey acc p.1 p.2) d

/-- Python truthiness of an `Optional[str]`: `None` and `""` are falsy. -/
def pyTruthy : Option String → Bool
  | Option.none => false
  | some s => !s.isEmpty

/-- Rendering of an `Optional[str]` inside a Python f-string. -/
def pyOptStr : Option String → String
  | Option.none => "None"
  | some s => s

/-- Does character list `p` occur at the head of `t`? (substring helper) -/
def startsL : List Char → List Char → Bool
  | [], _ => true
  | _ :: _, [] => false
  | a :: p', b :: t' => a = b && startsL p' t'

/-- Does character list `p` occur anywhere inside `t`? -/
def containsL : List Char → List Char → Bool
  | [], p => startsL p []
  | c :: t', p => startsL p (c :: t') || containsL t' p

/-- Python `needle in hay` on strings (substring containment). -/
def strIn (needle hay : String) : Bool :=
  containsL hay.toList needle.toList

/-- Python `str.lower()` (character-wise; the repository only lowercases
ASCII keyword text). -/
def pyLower (s : String) : String :=
  String.mk (s.toList.map Char.toLower)

/-- Splitting a character list on a separator character
(`"a_b".split('_') = ["a", "b"]`, `"".split('_') = [""]`). -/
def splitL (sep : Char) : List Char → List (List Char)
  | [] => [[]]
  | c :: t =>
    let rest := splitL sep t
    if c = sep then [] :: rest
    else
      match rest with
      | h :: tl => (c :: h) :: tl
      | [] => [[c]]

/-- Python `s.split(sep)` for a single-character separator. -/
def pySplit (s : String) (sep : Char) : List String :=
  (splitL sep s.toList).map String.mk

/-! ## src/config/settings.py -/

/-- The environment-derived configuration fields that
`Config.validate` (src/config/settings.py) reads. `Option.none` models an
unset environment variable; the empty string models a set-but-empty one
(both are falsy in the Python `if not cls.X` tests). -/
structure ConfigState where
  SERPAPI_KEY : Option String
  GOOGLE_API_KEY : Option String
  OPENAI_API_KEY : Option String

/-- Model of `Config.validate` (src/config/settings.py, lines 35-49): collects the
missing required variables and raises `ValueError` (modelled as
`Except.error` carrying the message) when any are missing, otherwise
returns `True`. -/
def Config.validate (c : ConfigState) : Except String Bool :=
  let missing : List String :=
    (if !pyTruthy c.SERPAPI_KEY then ["SERPAPI_KEY"] else []) ++
    (if !pyTruthy c.GOOGLE_API_KEY && !pyTruthy c.OPENAI_API_KEY then
      ["GOOGLE_API_KEY or OPENAI_API_KEY"] else [])
  if missing.isEmpty then
    .ok true
  else
    .error ("Missing required environment variables: " ++
      String.intercalate ", " missing)

example : Config.validate ⟨some "k", some "g", Option.none⟩ = .ok true := rfl
example : Config.validate ⟨some "k", Option.none, some "o"⟩ = .ok true := rfl
example : (Config.validate ⟨Option.none, some "g", Option.none⟩).isOk = false := rfl

/-! ## src/tools/__init__.py -/

/-- Model of `SerpApiSearchTool._make_search_request` (src/tools/__init__.py,
lines 19-36).  The HTTP GET, the status check and the JSON decoding are
abstracted into a single `net` function from the final parameter dict to
either the decoded JSON body (`.ok`) or a raised exception (`.error`,
carrying `str(e)`).  The `try/except` of the source becomes the `match`
in `SerpApiSearchTool.make_search_request` below: the function is total,
i.e. it never raises.  `searchParamsOf` is the parameter dict built on
lines 21-29 (`search_params` plus the optional `params` update). -/
def searchParamsOf (query : String)
    (params : Option (List (String × PyVal))) (api_key : Option String) :
    List (String × PyVal) :=
  let base : List (String × PyVal) :=
    [("q", .str query), ("engine", .str "google"),
     ("api_key", match api_key with | some k => .str k | Option.none => .none),
     ("num", .int 10)]
  match params with
  | some p => pyUpdate base p
  | Option.none => base

/-- The `try/except` body of `_make_search_request`: apply the abstract
network pipeline to the built parameters and catch any exception. -/
def SerpApiSearchTool.make_search_request (query : String)
    (params : Option (List (String × PyVal))) (api_key : Option String)
    (net : List (String × PyVal) → Except String PyVal) : PyVal :=
  match net (searchParamsOf query params api_key) with
  | .ok body => body
  | .error e => .dict [("error", .str e), ("organic_results", .list [])]

/-! ## src/agents/orchestrator.py : intent parsing -/

/-- The fields of the intent dict built by
`TravelPlanningOrchestrator._parse_travel_intent` that the claims refer
to (the remaining extracted fields — destination, duration, travelers,
interests, dates, special_requirements — are computed independently and
do not influence these three). -/
structure Intent where
  type : String
  modification : Bool
  budget : String

/-- Model of `TravelPlanningOrchestrator._parse_travel_intent`
(src/agents/orchestrator.py, lines 121-210), restricted to the
`type`/`modification`/`budget` fields.  `type` starts as `"unknown"` and
`modification` as `False`; the if/elif chain below always overwrites
`type`, and sets `modification` only in the `modify_plan` branch. -/
def TravelPlanningOrchestrator.parse_travel_intent (message : String) : Intent :=
  let message_lower := pyLower message
  let tm : String × Bool :=
    if ["plan", "trip", "itinerary", "travel"].any
        (fun word => strIn word message_lower) then
      ("plan_trip", false)
    else if ["find", "search", "look"].any
        (fun word => strIn word message_lower) then
      (if strIn "flight" message_lower then ("search_flights", false)
       else if strIn "hotel" message_lower then ("search_hotels", false)
       else if strIn "activities" message_lower ||
           strIn "things to do" message_lower then ("search_activities", false)
       else ("general_search", false))
    else if ["modify", "change", "update", "add", "remove"].any
        (fun word => strIn word message_lower) then
      ("modify_plan", true)
    else
      ("general_inquiry", false)
  let budget : String :=
    if ["budget", "cheap", "affordable"].any
        (fun word => strIn word message_lower) then "budget"
    else if ["luxury", "high-end", "premium"].any
        (fun word => strIn word message_lower) then "luxury"
    else "mid-range"
  { type := tm.1, modification := tm.2, budget := budget }

/-- The intent-type assignment exactly as the specification claim words
it: case-insensitive substring tests in a fixed priority order. -/
def intentTypeSpec (message : String) : String :=
  let l := pyLower message
  if (strIn "plan" l || strIn "trip" l || strIn "itinerary" l ||
      strIn "travel" l) = true then "plan_trip"
  else if (strIn "find" l || strIn "search" l || strIn "look" l) = true then
    (if strIn "flight" l = true then "search_flights"
     else if strIn "hotel" l = true then "search_hotels"
     else if (strIn "activities" l || strIn "things to do" l) = true then
       "search_activities"
     else "general_search")
  else if (strIn "modify" l || strIn "change" l || strIn "update" l ||
      strIn "add" l || strIn "remove" l) = true then "modify_plan"
  else "general_inquiry"

example : (TravelPlanningOrchestrator.parse_travel_intent "Plan a trip to Tokyo").type = "plan_trip" := rfl
example : (TravelPlanningOrchestrator.parse_travel_intent "find a cheap hotel").type = "search_hotels" := rfl
example : (TravelPlanningOrchestrator.parse_travel_intent "find a cheap hotel").budget = "budget" := rfl
example : (TravelPlanningOrchestrator.parse_travel_intent "remove day 2").type = "modify_plan" := rfl
example : (TravelPlanningOrchestrator.parse_travel_intent "remove day 2").modification = true := rfl
example : (TravelPlanningOrchestrator.parse_travel_intent "hello there").type = "general_inquiry" := rfl

/-! ## src/agents/orchestrator.py : workflow planning -/

/-- The workflow dict built by
`TravelPlanningOrchestrator._plan_agent_workflow`: a list of
(agent, task) steps, the (unused) parallel task list, and the required
agent set (modelled as a list). -/
structure Workflow where
  steps : List (String × String)
  parallel_tasks : List String
  required_agents : List String

/-- Model of `TravelPlanningOrchestrator._plan_agent_workflow`
(src/agents/orchestrator.py, lines 212-254).  Only `intent["type"]` is
consulted. -/
def TravelPlanningOrchestrator.plan_agent_workflow (intent_type : String) :
    Workflow :=
  if intent_type = "plan_trip" then
    { steps := [("data_aggregator", "gather_destination_data"),
                ("itinerary_agent", "create_itinerary"),
                ("orchestrator", "synthesize_plan")],
      parallel_tasks := [],
      required_agents := ["data_aggregator", "itinerary_agent"] }
  else if intent_type ∈ ["search_flights", "search_hotels", "search_activities"] then
    { steps := [("data_aggregator",
                 "search_" ++ (pySplit intent_type '_').getD 1 "")],
      parallel_tasks := [],
      required_agents := ["data_aggregator"] }
  else if intent_type = "modify_plan" then
    { steps := [("itinerary_agent", "modify_existing")],
      parallel_tasks := [],
      required_agents := ["itinerary_agent"] }
  else
    { steps := [("data_aggregator", "general_search")],
      parallel_tasks := [],
      required_agents := ["data_aggregator"] }

example : (TravelPlanningOrchestrator.plan_agent_workflow "search_hotels").steps
    = [("data_aggregator", "search_hotels")] := rfl
example : (TravelPlanningOrchestrator.plan_agent_workflow "general_inquiry").steps
    = [("data_aggregator", "general_search")] := rfl

/-! ## src/agents/data_aggregator.py -/

/-- The `needs` dict computed by
`DataAggregationAgent._analyze_data_needs`. -/
structure Needs where
  flights : Bool
  hotels : Bool
  activities : Bool
  destination_info : Bool

/-- The fields of a `travel_request` dict that
`DataAggregationAgent.aggregate_travel_data` extracts with `.get`
(absent keys give `None`; `travelers` defaults to 2 and `interests`
to `""`). -/
structure TravelRequest where
  destination : Option String
  origin : Option String
  departure_date : Option String
  return_date : Option String
  check_in : Option String
  check_out : Option String
  travelers : Nat
  interests : String

/-- Model of `DataAggregationAgent._analyze_data_needs`
(src/agents/data_aggregator.py, lines 99-116): activities and
destination info are always needed; flights need truthy `origin` and
`departure_date`; hotels need truthy `check_in` and `check_out`. -/
def DataAggregationAgent.analyze_data_needs (request : TravelRequest) : Needs :=
  { flights := pyTruthy request.origin && pyTruthy request.departure_date,
    hotels := pyTruthy request.check_in && pyTruthy request.check_out,
    activities := true,
    destination_info := true }

/-- The Python-default `needs` used when `_execute_parallel_searches`
is called with `needs=None`: every field `True`. -/
def needsOf : Option Needs → Needs
  | Option.none => ⟨true, true, true, true⟩
  | some n => n

/-- The guarded task list built by `_execute_parallel_searches`
(src/agents/data_aggregator.py, lines 136-158): each issued search is a
(name, outcome) pair, in source order.  The outcome of each tool call
(`flight_tool.execute`, ...) is abstracted as an `Except String String`
parameter: `.error e` models the coroutine raising an exception with
`str(e) = e`, `.ok v` models it returning the result string `v`. -/
def searchTasks (needs : Needs) (origin departure_date check_in check_out : Option String)
    (oFlights oHotels oActivities oDestinfo : Except String String) :
    List (String × Except String String) :=
  (if (needs.flights && pyTruthy origin && pyTruthy departure_date) = true then
    [("flights", oFlights)] else []) ++
  (if (needs.hotels && pyTruthy check_in && pyTruthy check_out) = true then
    [("hotels", oHotels)] else []) ++
  (if needs.activities = true then [("activities", oActivities)] else []) ++
  (if needs.destination_info = true then [("destination_info", oDestinfo)] else [])

/-- The per-search entry that the result-mapping loop of
`_execute_parallel_searches` (lines 166-171) produces from one
`asyncio.gather(..., return_exceptions=True)` outcome: an exception
becomes `{"error": str(e)}`, a value becomes
`{"data": result, "success": True}`. -/
def entryFor : Except String String → PyVal
  | .error e => .dict [("error", .str e)]
  | .ok v => .dict [("data", .str v), ("success", .bool true)]

/-- Model of `DataAggregationAgent._execute_parallel_searches`
(src/agents/data_aggregator.py, lines 118-178).  `asyncio.gather` with
`return_exceptions=True` never raises, so the mapping loop runs on one
outcome per task and the surrounding `try/except` is dead; with no tasks
the `{"message": ...}` dict is returned. -/
def DataAggregationAgent.execute_parallel_searches
    (origin departure_date return_date check_in check_out : Option String)
    (needs : Option Needs)
    (oFlights oHotels oActivities oDestinfo : Except String String) : PyVal :=
  let needs := needsOf needs
  let tasks := searchTasks needs origin departure_date check_in check_out
    oFlights oHotels oActivities oDestinfo
  if tasks.isEmpty = true then
    .dict [("message", .str "No searches were needed based on the request")]
  else
    .dict (tasks.map (fun p => (p.1, entryFor p.2)))

example :
    DataAggregationAgent.execute_parallel_searches
      (some "NYC") (some "2025-05-01") Option.none Option.none Option.none Option.none
      (.error "boom") (.ok "h") (.ok "a") (.error "d")
    = .dict [("flights", .dict [("error", .str "boom")]),
             ("activities", .dict [("data", .str "a"), ("success", .bool true)]),
             ("destination_info", .dict [("error", .str "d")])] := rfl

/-! ## src/agents/orchestrator.py : workflow execution and synthesis -/

/-- The `results` dict built by
`TravelPlanningOrchestrator._execute_workflow`. -/
structure WfResults where
  workflow_results : List (String × String × PyVal)
  agent_outputs : List (String × PyVal)
  status : String
  error : Option String

/-- The step loop of `TravelPlanningOrchestrator._execute_workflow`
(src/agents/orchestrator.py, lines 265-289), with the dispatch to
`_coordinate_data_aggregator` / `_coordinate_itinerary_agent` /
`_coordinate_self_task` abstracted as `exec agent task`: an
`.error e` outcome models an exception with `str(e) = e` raised while
executing that step, which the `except` clause turns into
`status = "error"`, `error = str(e)` on the results accumulated so
far. -/
def wfStepLoop (exec : String → String → Except String PyVal) :
    List (String × String) → WfResults → WfResults
  | [], acc => acc
  | (agent, task) :: rest, acc =>
    match exec agent task with
    | .error e => { acc with status := "error", error := some e }
    | .ok result =>
      wfStepLoop exec rest
        { acc with
          agent_outputs := setKey acc.agent_outputs agent result,
          workflow_results := acc.workflow_results ++ [(agent, task, result)] }

/-- Model of `TravelPlanningOrchestrator._execute_workflow`
(src/agents/orchestrator.py, lines 256-291): starts from
`{"workflow_results": [], "agent_outputs": {}, "status": "success"}`
and runs the step loop under the `try/except`. -/
def TravelPlanningOrchestrator.execute_workflow
    (steps : List (String × String))
    (exec : String → String → Except String PyVal) : WfResults :=
  wfStepLoop exec steps
    { workflow_results := [], agent_outputs := [],
      status := "success", error := Option.none }

/-- Model of `TravelPlanningOrchestrator._synthesize_response`
(src/agents/orchestrator.py, lines 410-480): on
`workflow_result["status"] == "error"` it returns the apology string
with `workflow_result.get('error')` interpolated; otherwise it builds
the success response from the agent outputs — that non-error rendering
(lines 416-480) is abstracted as the `renderOk` parameter, so the
theorems below hold for every possible rendering. -/
def TravelPlanningOrchestrator.synthesize_response (workflow_result : WfResults)
    (renderOk : WfResults → String) : String :=
  if workflow_result.status = "error" then
    "I apologize, but I encountered an error while processing your request: " ++
      pyOptStr workflow_result.error
  else
    renderOk workflow_result

example :
    TravelPlanningOrchestrator.synthesize_response
      (TravelPlanningOrchestrator.execute_workflow
        [("data_aggregator", "gather_destination_data")]
        (fun _ _ => .error "boom"))
      (fun _ => "unused")
    = "I apologize, but I encountered an error while processing your request: boom" := rfl

/-! ## src/agents/itinerary_agent.py -/

/-- One activity entry of a day plan. -/
structure Activity where
  time : String
  activity : String
  description : String

/-- One entry of `daily_plan`. -/
structure DayPlan where
  day : Nat
  theme : String
  activities : List Activity

/-- The itinerary dict built by
`ItineraryPlanningAgent.create_itinerary`.  The `special_requirements`
field (always `{}` on the paths the claims cover) is omitted. -/
structure Itinerary where
  destination : String
  duration : String
  num_days : Nat
  travelers : Nat
  budget : String
  interests : List String
  destination_overview : String
  activities : String
  travel_tips : String
  created_at : String
  daily_plan : List DayPlan

/-- The maximal digit run starting a `re.search(r'(\d+)', s)` match:
scan for the first digit, then take the following digits. -/
def takeDigits : List Char → List Char
  | [] => []
  | c :: t => if c.isDigit then c :: takeDigits t else []

/-- Model of `re.search(r'(\d+)', s)`: the first maximal digit run of `s`,
or `none` when `s` has no digit. -/
def firstDigitRun : List Char → Option (List Char)
  | [] => Option.none
  | c :: t => if c.isDigit then some (c :: takeDigits t) else firstDigitRun t

/-- Python `int(...)` on a digit run. -/
def digitsVal (l : List Char) : Nat :=
  l.foldl (fun acc c => 10 * acc + (c.toNat - '0'.toNat)) 0

/-- Model of `int(days_match.group(1)) if days_match else 3`
(src/agents/itinerary_agent.py, lines 67-68). -/
def extractNumDays (duration : String) : Nat :=
  match firstDigitRun duration.toList with
  | some run => digitsVal run
  | Option.none => 3

example : extractNumDays "2 days" = 2 := rfl
example : extractNumDays "a fortnight" = 3 := rfl
example : extractNumDays "12 days" = 12 := rfl

/-- Python `str.title()` restricted to ASCII letters: the first letter
of each letter run is uppercased, the rest lowercased. -/
def titleGo : List Char → Bool → List Char
  | [], _ => []
  | c :: t, prevAlpha =>
    if c.isAlpha then
      (if prevAlpha then c.toLower else c.toUpper) :: titleGo t true
    else
      c :: titleGo t false

/-- Python `str.title()`. -/
def pyTitle (s : String) : String :=
  String.mk (titleGo s.toList false)

example : pyTitle "culture" = "Culture" := rfl
example : pyTitle "things to do" = "Things To Do" := rfl

/-- Model of `ItineraryPlanningAgent._get_day_theme`
(src/agents/itinerary_agent.py, lines 134-141): rotate through the
interests (defaulting to culture/food/sightseeing when empty) and
title-case the selected one. -/
def ItineraryPlanningAgent.get_day_theme (day total_days : Nat)
    (interests : List String) : String :=
  let interests :=
    if interests.isEmpty then ["culture", "food", "sightseeing"] else interests
  pyTitle (interests.getD ((day - 1) % interests.length) "")

/-- Model of `ItineraryPlanningAgent._generate_daily_plan`
(src/agents/itinerary_agent.py, lines 102-132): one entry per day
`1..num_days`, each with the theme from `_get_day_theme` and the three
fixed Morning/Afternoon/Evening activities. -/
def ItineraryPlanningAgent.generate_daily_plan (destination : String)
    (num_days : Nat) (interests : List String) : List DayPlan :=
  (List.range num_days).map (fun k =>
    let day := k + 1
    { day := day,
      theme := ItineraryPlanningAgent.get_day_theme day num_days interests,
      activities := [
        { time := "Morning",
          activity := s!"Explore {destination} - Day {day} morning activities",
          description := "Based on your interests and recommendations" },
        { time := "Afternoon",
          activity := s!"Main attraction visit - Day {day}",
          description := "Featured activity for the day" },
        { time := "Evening",
          activity := "Local dining and culture",
          description := "Experience local cuisine and nightlife" } ] })

/-- Model of `ItineraryPlanningAgent.create_itinerary`
(src/agents/itinerary_agent.py, lines 55-100).  The three tool calls
(`DestinationInfoTool`, `ActivitySearchTool`, `TravelTipsTool`) and
`datetime.now()` return opaque strings and are passed in as the
`destination_info_res` / `activities_res` / `travel_tips_res` / `now`
parameters.  `interests` is Python-optional: `interests or []`. -/
def ItineraryPlanningAgent.create_itinerary (destination duration : String)
    (travelers : Nat) (interests : Option (List String)) (budget : String)
    (destination_info_res activities_res travel_tips_res now : String) :
    Itinerary :=
  let num_days := extractNumDays duration
  let interests_list := interests.getD []
  { destination := destination,
    duration := duration,
    num_days := num_days,
    travelers := travelers,
    budget := budget,
    interests := interests_list,
    destination_overview := destination_info_res,
    activities := activities_res,
    travel_tips := travel_tips_res,
    created_at := now,
    daily_plan :=
      ItineraryPlanningAgent.generate_daily_plan destination num_days interests_list }

/-- The result of `ItineraryPlanningAgent.modify_itinerary`: either the
`{"error": ...}` dict or the recreated itinerary carrying the
`"modification"` key. -/
inductive ModifyResult where
  | err (msg : String)
  | ok (itinerary : Itinerary) (modification : String)

/-- Model of `ItineraryPlanningAgent.modify_itinerary`
(src/agents/itinerary_agent.py, lines 143-168), together with its effect
on the stored `current_itinerary` state (second component; `none` models
the empty `{}` dict).  On a non-empty current itinerary it recreates via
`create_itinerary` (which stores the new itinerary) with the `changes`
string appended to the interests. -/
def ItineraryPlanningAgent.modify_itinerary (current : Option Itinerary)
    (changes : String)
    (destination_info_res activities_res travel_tips_res now : String) :
    ModifyResult × Option Itinerary :=
  match current with
  | Option.none => (.err "No itinerary exists to modify", Option.none)
  | some cur =>
    let modified := ItineraryPlanningAgent.create_itinerary cur.destination
      cur.duration cur.travelers (some (cur.interests ++ [changes])) cur.budget
      destination_info_res activities_res travel_tips_res now
    (.ok modified changes, some modified)

example :
    ((ItineraryPlanningAgent.create_itinerary "Tokyo" "2 days" 2 Option.none
      "mid-range" "d" "a" "t" "now").daily_plan.map (fun p => (p.day, p.theme)))
    = [(1, "Culture"), (2, "Food")] := rfl

/-- The `task_names` list built alongside the tasks in
`_execute_parallel_searches` (src/agents/data_aggregator.py,
lines 136-158). -/
def taskNames (needs : Needs)
    (origin departure_date check_in check_out : Option String) : List String :=
  (if (needs.flights && pyTruthy origin && pyTruthy departure_date) = true then
    ["flights"] else []) ++
  (if (needs.hotels && pyTruthy check_in && pyTruthy check_out) = true then
    ["hotels"] else []) ++
  (if needs.activities = true then ["activities"] else []) ++
  (if needs.destination_info = true then ["destination_info"] else [])

lemma searchTasks_names (needs : Needs)
    (origin departure_date check_in check_out : Option String)
    (oFlights oHotels oActivities oDestinfo : Except String String) :
    (searchTasks needs origin departure_date check_in check_out
      oFlights oHotels oActivities oDestinfo).map Prod.fst =
    taskNames needs origin departure_date check_in check_out := by
  unfold searchTasks taskNames
  cases needs.flights && pyTruthy origin && pyTruthy departure_date <;>
    cases needs.hotels && pyTruthy check_in && pyTruthy check_out <;>
      cases needs.activities <;> cases needs.destination_info <;> simp

/-! ## Claim theorems -/

/-- C1: In `DataAggregationAgent._execute_parallel_searches`, failures
are captured per issued search: a search that raises `e` contributes
`{"error": str(e)}` under its name, a search that succeeds with `v`
contributes `{"data": v, "success": True}` (`entryFor` is exactly this
mapping), and — since each conclusion holds for all values of the other
three outcomes — one search's failure does not change any other
search's entry.  The concurrent issue-and-join of `asyncio.gather` is
modelled by the four independent outcome parameters. -/
theorem parallel_searches_capture_failures_per_call
    (origin departure_date return_date check_in check_out : Option String)
    (needs : Option Needs)
    (oFlights oHotels oActivities oDestinfo : Except String String) :
    (((needsOf needs).flights && pyTruthy origin && pyTruthy departure_date) = true →
      pyLookup (DataAggregationAgent.execute_parallel_searches origin departure_date
          return_date check_in check_out needs oFlights oHotels oActivities oDestinfo)
        "flights" = some (entryFor oFlights)) ∧
    (((needsOf needs).hotels && pyTruthy check_in && pyTruthy check_out) = true →
      pyLookup (DataAggregationAgent.execute_parallel_searches origin departure_date
          return_date check_in check_out needs oFlights oHotels oActivities oDestinfo)
        "hotels" = some (entryFor oHotels)) ∧
    ((needsOf needs).activities = true →
      pyLookup (DataAggregationAgent.execute_parallel_searches origin departure_date
          return_date check_in check_out needs oFlights oHotels oActivities oDestinfo)
        "activities" = some (entryFor oActivities)) ∧
    ((needsOf needs).destination_info = true →
      pyLookup (DataAggregationAgent.execute_parallel_searches origin departure_date
          return_date check_in check_out needs oFlights oHotels oActivities oDestinfo)
        "destination_info" = some (entryFor oDestinfo)) := by
  unfold DataAggregationAgent.execute_parallel_searches searchTasks
  cases hF : (needsOf needs).flights && pyTruthy origin && pyTruthy departure_date <;>
    cases hH : (needsOf needs).hotels && pyTruthy check_in && pyTruthy check_out <;>
      cases hA : (needsOf needs).activities <;>
        cases hD : (needsOf needs).destination_info <;>
          simp [hF, hH, hA, hD, pyLookup, lookupL]

/-- C1 witness: all four searches issued, with the flight search failing
and the hotel search succeeding. -/
theorem parallel_searches_capture_failures_per_call_witness :
    pyLookup (DataAggregationAgent.execute_parallel_searches
        (some "NYC") (some "2025-05-01") Option.none (some "2025-05-01")
        (some "2025-05-08") Option.none
        (.error "boom") (.ok "5 hotels") (.ok "8 activities") (.ok "info"))
      "flights" = some (.dict [("error", .str "boom")]) ∧
    pyLookup (DataAggregationAgent.execute_parallel_searches
        (some "NYC") (some "2025-05-01") Option.none (some "2025-05-01")
        (some "2025-05-08") Option.none
        (.error "boom") (.ok "5 hotels") (.ok "8 activities") (.ok "info"))
      "hotels" = some (.dict [("data", .str "5 hotels"), ("success", .bool true)]) := by
  have h := parallel_searches_capture_failures_per_call
    (some "NYC") (some "2025-05-01") Option.none (some "2025-05-01")
    (some "2025-05-08") Option.none
    (.error "boom") (.ok "5 hotels") (.ok "8 activities") (.ok "info")
  exact ⟨h.1 (by decide), h.2.1 (by decide)⟩

/-- C2: `SerpApiSearchTool._make_search_request` never raises (it is a
total function of the network pipeline's outcome): when the HTTP
request / status check / JSON decode raises `e` it returns
`{"error": str(e), "organic_results": []}`, otherwise it returns the
decoded JSON response unchanged. -/
theorem make_search_request_never_raises (query : String)
    (params : Option (List (String × PyVal))) (api_key : Option String)
    (net : List (String × PyVal) → Except String PyVal) :
    SerpApiSearchTool.make_search_request query params api_key net =
      (match net (searchParamsOf query params api_key) with
       | .error e => .dict [("error", .str e), ("organic_results", .list [])]
       | .ok body => body) := by
  unfold SerpApiSearchTool.make_search_request
  cases net (searchParamsOf query params api_key) <;> rfl

/-- C3: `_plan_agent_workflow` maps the `"plan_trip"` intent to exactly
the three-step workflow (data_aggregator/gather_destination_data,
itinerary_agent/create_itinerary, orchestrator/synthesize_plan) in that
order, and every other intent type to exactly one step. -/
theorem plan_agent_workflow_steps :
    (TravelPlanningOrchestrator.plan_agent_workflow "plan_trip").steps =
      [("data_aggregator", "gather_destination_data"),
       ("itinerary_agent", "create_itinerary"),
       ("orchestrator", "synthesize_plan")] ∧
    ∀ t : String, t ≠ "plan_trip" →
      (TravelPlanningOrchestrator.plan_agent_workflow t).steps.length = 1 := by
  refine ⟨rfl, ?_⟩
  intro t h
  simp only [TravelPlanningOrchestrator.plan_agent_workflow, if_neg h]
  split
  · rfl
  · split <;> rfl

/-- C3 witness: a non-`plan_trip` intent type yields a single step. -/
theorem plan_agent_workflow_steps_witness :
    (TravelPlanningOrchestrator.plan_agent_workflow "modify_plan").steps.length = 1 :=
  plan_agent_workflow_steps.2 "modify_plan" (by decide)

/-- C4: `_parse_travel_intent` assigns the intent type by
case-insensitive substring tests in the fixed priority order the claim
states (`intentTypeSpec` is that order verbatim), and sets
`modification` exactly for the `"modify_plan"` outcome. -/
theorem parse_travel_intent_priority (message : String) :
    (TravelPlanningOrchestrator.parse_travel_intent message).type =
      intentTypeSpec message ∧
    (TravelPlanningOrchestrator.parse_travel_intent message).modification =
      (intentTypeSpec message == "modify_plan") := by
  unfold TravelPlanningOrchestrator.parse_travel_intent intentTypeSpec
  simp only [List.any_cons, List.any_nil, Bool.or_false, Bool.or_assoc]
  constructor <;> split_ifs <;> simp_all

/-- C5 counterexample: with `SERPAPI_KEY` set, `GOOGLE_API_KEY` unset
and `OPENAI_API_KEY` set, `Config.validate` returns `True` even though
`GOOGLE_API_KEY` is unset, so "raises exactly when SERPAPI_KEY is unset
or GOOGLE_API_KEY is unset / returns True exactly when both are set" is
false at this input. -/
theorem config_validate_claim_counterexample :
    ¬ ((Config.validate ⟨some "sk", Option.none, some "ok"⟩).isOk = true ↔
       (pyTruthy (some "sk") = true ∧
        pyTruthy (Option.none : Option String) = true)) := by
  intro h
  exact absurd (h.mp rfl).2 (by decide)

/-- C5 (amended): `Config.validate` returns `True` exactly when
`SERPAPI_KEY` is set and at least one of `GOOGLE_API_KEY` /
`OPENAI_API_KEY` is set, and raises `ValueError` (i.e. produces no
value) exactly otherwise. -/
theorem config_validate_requires_serpapi_and_some_llm_key (c : ConfigState) :
    (Config.validate c).toOption =
      (if pyTruthy c.SERPAPI_KEY &&
          (pyTruthy c.GOOGLE_API_KEY || pyTruthy c.OPENAI_API_KEY) then
        some true
      else
        Option.none) := by
  cases hs : pyTruthy c.SERPAPI_KEY <;>
    cases hg : pyTruthy c.GOOGLE_API_KEY <;>
      cases ho : pyTruthy c.OPENAI_API_KEY <;>
        simp [Config.validate, Except.toOption, hs, hg, ho]

lemma wfStepLoop_error (exec : String → String → Except String PyVal)
    (agent task e : String) (rest : List (String × String)) :
    ∀ (done : List (String × String)) (acc : WfResults),
      (∀ p ∈ done, (exec p.1 p.2).isOk = true) →
      exec agent task = .error e →
      (wfStepLoop exec (done ++ (agent, task) :: rest) acc).status = "error" ∧
      (wfStepLoop exec (done ++ (agent, task) :: rest) acc).error = some e := by
  intro done
  induction done with
  | nil =>
    intro acc _ hfail
    simp [wfStepLoop, hfail]
  | cons p ps ih =>
    intro acc hdone hfail
    obtain ⟨a', t'⟩ := p
    have hok := hdone (a', t') (by simp)
    cases hx : exec a' t' with
    | error e' => rw [hx] at hok; simp [Except.isOk, Except.toBool] at hok
    | ok r =>
      simp only [List.cons_append, wfStepLoop, hx]
      exact ih _ (fun q hq => hdone q (by simp [hq])) hfail

/-- C6: if an exception `e` is raised while executing a workflow step
(all earlier steps having completed), `_execute_workflow` returns a
results dict with `status = "error"` and `error = str(e)`, and
`_synthesize_response` on that result is exactly the apology string
followed by `str(e)` — whatever the non-error rendering would have
been. -/
theorem execute_workflow_error_propagates
    (exec : String → String → Except String PyVal)
    (renderOk : WfResults → String)
    (done rest : List (String × String)) (agent task e : String)
    (hdone : ∀ p ∈ done, (exec p.1 p.2).isOk = true)
    (hfail : exec agent task = .error e) :
    (TravelPlanningOrchestrator.execute_workflow
      (done ++ (agent, task) :: rest) exec).status = "error" ∧
    (TravelPlanningOrchestrator.execute_workflow
      (done ++ (agent, task) :: rest) exec).error = some e ∧
    TravelPlanningOrchestrator.synthesize_response
        (TravelPlanningOrchestrator.execute_workflow
          (done ++ (agent, task) :: rest) exec) renderOk =
      "I apologize, but I encountered an error while processing your request: "
        ++ e := by
  have h := wfStepLoop_error exec agent task e rest done
    { workflow_results := [], agent_outputs := [],
      status := "success", error := Option.none } hdone hfail
  refine ⟨h.1, h.2, ?_⟩
  unfold TravelPlanningOrchestrator.synthesize_response
  unfold TravelPlanningOrchestrator.execute_workflow at h ⊢
  rw [if_pos h.1, h.2]
  rfl

/-- C6 witness: a one-step workflow whose step raises `"boom"`. -/
theorem execute_workflow_error_propagates_witness :
    TravelPlanningOrchestrator.synthesize_response
        (TravelPlanningOrchestrator.execute_workflow
          [("data_aggregator", "gather_destination_data")]
          (fun _ _ => .error "boom"))
        (fun _ => "") =
      "I apologize, but I encountered an error while processing your request: "
        ++ "boom" := by
  have h := execute_workflow_error_propagates (fun _ _ => .error "boom")
    (fun _ => "") [] [] "data_aggregator" "gather_destination_data" "boom"
    (by simp) rfl
  exact h.2.2

/-- C7: in `aggregate_travel_data`'s fan-out (needs from
`_analyze_data_needs`, issue guards from `_execute_parallel_searches`,
both applied to the same request fields), the flight search is issued
iff `origin` and `departure_date` are both truthy, the hotel search iff
`check_in` and `check_out` are both truthy, and the activity and
destination-info searches are always issued. -/
theorem aggregate_travel_data_fixed_fanout (r : TravelRequest) :
    ("flights" ∈ taskNames (DataAggregationAgent.analyze_data_needs r)
        r.origin r.departure_date r.check_in r.check_out ↔
      (pyTruthy r.origin && pyTruthy r.departure_date) = true) ∧
    ("hotels" ∈ taskNames (DataAggregationAgent.analyze_data_needs r)
        r.origin r.departure_date r.check_in r.check_out ↔
      (pyTruthy r.check_in && pyTruthy r.check_out) = true) ∧
    "activities" ∈ taskNames (DataAggregationAgent.analyze_data_needs r)
      r.origin r.departure_date r.check_in r.check_out ∧
    "destination_info" ∈ taskNames (DataAggregationAgent.analyze_data_needs r)
      r.origin r.departure_date r.check_in r.check_out := by
  cases h1 : pyTruthy r.origin <;> cases h2 : pyTruthy r.departure_date <;>
    cases h3 : pyTruthy r.check_in <;> cases h4 : pyTruthy r.check_out <;>
      simp [taskNames, DataAggregationAgent.analyze_data_needs, h1, h2, h3, h4]

/-- C8: the intent returned by `_parse_travel_intent` always has one of
the seven final types (never the initial `"unknown"`) and one of the
three budget values (never the initial `None`). -/
theorem parse_travel_intent_invariants (message : String) :
    (TravelPlanningOrchestrator.parse_travel_intent message).type ∈
      ["plan_trip", "search_flights", "search_hotels", "search_activities",
       "general_search", "modify_plan", "general_inquiry"] ∧
    (TravelPlanningOrchestrator.parse_travel_intent message).budget ∈
      ["budget", "luxury", "mid-range"] := by
  constructor <;>
    (simp only [TravelPlanningOrchestrator.parse_travel_intent]
     split_ifs <;> simp)

/-- The claim's "interests defaulting to culture/food/sightseeing when
empty". -/
def defaultedInterests (interests : List String) : List String :=
  if interests.isEmpty then ["culture", "food", "sightseeing"] else interests

lemma generate_daily_plan_get (destination : String) (num_days : Nat)
    (interests : List String) (i : Nat)
    (h : i < (ItineraryPlanningAgent.generate_daily_plan destination
      num_days interests).length) :
    (ItineraryPlanningAgent.generate_daily_plan destination num_days
      interests).get ⟨i, h⟩ =
    { day := i + 1,
      theme := ItineraryPlanningAgent.get_day_theme (i + 1) num_days interests,
      activities := [
        { time := "Morning",
          activity := s!"Explore {destination} - Day {i + 1} morning activities",
          description := "Based on your interests and recommendations" },
        { time := "Afternoon",
          activity := s!"Main attraction visit - Day {i + 1}",
          description := "Featured activity for the day" },
        { time := "Evening",
          activity := "Local dining and culture",
          description := "Experience local cuisine and nightlife" } ] } := by
  simp [ItineraryPlanningAgent.generate_daily_plan, List.get_eq_getElem]

lemma generate_daily_plan_props (destination : String) (num_days : Nat)
    (interests : List String) (i : Nat)
    (h : i < (ItineraryPlanningAgent.generate_daily_plan destination
      num_days interests).length) :
    ((ItineraryPlanningAgent.generate_daily_plan destination num_days
      interests).get ⟨i, h⟩).day = i + 1 ∧
    ((ItineraryPlanningAgent.generate_daily_plan destination num_days
      interests).get ⟨i, h⟩).activities.map Activity.time =
      ["Morning", "Afternoon", "Evening"] ∧
    ((ItineraryPlanningAgent.generate_daily_plan destination num_days
      interests).get ⟨i, h⟩).theme =
      pyTitle ((defaultedInterests interests).getD
        (i % (defaultedInterests interests).length) "") := by
  rw [generate_daily_plan_get]
  refine ⟨rfl, rfl, ?_⟩
  simp [ItineraryPlanningAgent.get_day_theme, defaultedInterests,
    Nat.add_sub_cancel]

/-- C9: `create_itinerary` sets `num_days` to the first integer in the
duration string (3 when there is none), and the daily plan has exactly
`num_days` entries, the `i`-th (1-based) having `day = i`, the three
Morning/Afternoon/Evening activities, and the theme
`interests[(i - 1) mod len(interests)].title()` with the culture /
food / sightseeing default for empty interests. -/
theorem create_itinerary_daily_plan
    (destination duration : String) (travelers : Nat)
    (interests : Option (List String)) (budget : String)
    (destination_info_res activities_res travel_tips_res now : String) :
    (ItineraryPlanningAgent.create_itinerary destination duration travelers
      interests budget destination_info_res activities_res travel_tips_res
      now).num_days = extractNumDays duration ∧
    (ItineraryPlanningAgent.create_itinerary destination duration travelers
      interests budget destination_info_res activities_res travel_tips_res
      now).daily_plan.length =
      (ItineraryPlanningAgent.create_itinerary destination duration travelers
        interests budget destination_info_res activities_res travel_tips_res
        now).num_days ∧
    ∀ (i : Nat) (h : i < (ItineraryPlanningAgent.create_itinerary destination
        duration travelers interests budget destination_info_res
        activities_res travel_tips_res now).daily_plan.length),
      ((ItineraryPlanningAgent.create_itinerary destination duration travelers
        interests budget destination_info_res activities_res travel_tips_res
        now).daily_plan.get ⟨i, h⟩).day = i + 1 ∧
      ((ItineraryPlanningAgent.create_itinerary destination duration travelers
        interests budget destination_info_res activities_res travel_tips_res
        now).daily_plan.get ⟨i, h⟩).activities.map Activity.time =
        ["Morning", "Afternoon", "Evening"] ∧
      ((ItineraryPlanningAgent.create_itinerary destination duration travelers
        interests budget destination_info_res activities_res travel_tips_res
        now).daily_plan.get ⟨i, h⟩).theme =
        pyTitle ((defaultedInterests
            ((ItineraryPlanningAgent.create_itinerary destination duration
              travelers interests budget destination_info_res activities_res
              travel_tips_res now).interests)).getD
          (i % (defaultedInterests
            ((ItineraryPlanningAgent.create_itinerary destination duration
              travelers interests budget destination_info_res activities_res
              travel_tips_res now).interests)).length) "") := by
  refine ⟨rfl, ?_, ?_⟩
  · simp [ItineraryPlanningAgent.create_itinerary,
      ItineraryPlanningAgent.generate_daily_plan]
  · intro i h
    exact generate_daily_plan_props destination (extractNumDays duration)
      (interests.getD []) i h

/-- C9 witness: a two-day itinerary with no interests gets the default
themes and the fixed activity times. -/
theorem create_itinerary_daily_plan_witness :
    ((ItineraryPlanningAgent.create_itinerary "Tokyo" "2 days" 2 Option.none
      "mid-range" "d" "a" "t" "now").daily_plan.get ⟨0, by decide⟩).theme =
      "Culture" ∧
    ((ItineraryPlanningAgent.create_itinerary "Tokyo" "2 days" 2 Option.none
      "mid-range" "d" "a" "t" "now").daily_plan.get
        ⟨0, by decide⟩).activities.map Activity.time =
      ["Morning", "Afternoon", "Evening"] := by
  have h := (create_itinerary_daily_plan "Tokyo" "2 days" 2 Option.none
    "mid-range" "d" "a" "t" "now").2.2 0 (by decide)
  exact ⟨by rw [h.2.2]; rfl, h.2.1⟩

/-- C10: `modify_itinerary` is atomic on error — with no stored
itinerary it returns the `"No itinerary exists to modify"` error and
leaves the state empty; with a stored itinerary it returns (and stores)
a recreated itinerary that keeps the stored destination, duration,
travelers and budget, whose interests are the previous interests with
the `changes` string appended, and whose result carries
`modification = changes`. -/
theorem modify_itinerary_atomic (changes destination_info_res activities_res
    travel_tips_res now : String) :
    ItineraryPlanningAgent.modify_itinerary Option.none changes
      destination_info_res activities_res travel_tips_res now =
      (.err "No itinerary exists to modify", Option.none) ∧
    ∀ cur : Itinerary, ∃ it : Itinerary,
      ItineraryPlanningAgent.modify_itinerary (some cur) changes
        destination_info_res activities_res travel_tips_res now =
        (.ok it changes, some it) ∧
      it.destination = cur.destination ∧ it.duration = cur.duration ∧
      it.travelers = cur.travelers ∧ it.budget = cur.budget ∧
      it.interests = cur.interests ++ [changes] := by
  refine ⟨rfl, fun cur => ⟨_, rfl, rfl, rfl, rfl, rfl, rfl⟩⟩
